import Mathlib

/-!
Verification of the snapshot-ingestion and metric-alignment pipeline of the
postgres-toast repository.

The development shallowly embeds the two Python loaders:

* `src/graphs.py` — `load_snapshots` (glob `stats_*.json`, sorted, per-file
  try/except around `json.load`, with `open` outside the try block),
  `build_timeseries`, and `main`;
* `src/monitor/graphs.py` — `load_metrics` (sorted `os.listdir`, `.json`
  filter, everything inside the try block, derived `DataPoint` records).

JSON values are modelled by the inductive `Json`; Python dictionary access,
truthiness, true division (raising `ZeroDivisionError` on a zero
denominator) and `sum` are modelled by explicit `Except`-returning
functions.  The external standard-library call `datetime.fromisoformat` is
modelled by an executable validity parser over the ISO-8601 subset the
repository's data uses; `datetime.now()` is passed in explicitly as a
`now` parameter.
-/

/-- Python exception, abstracted to its message. -/
abbrev PyErr := String

/-- A JSON value as produced by Python's json.load: null, booleans, numbers
(modelled as rationals), strings, arrays and objects. -/
inductive Json where
  | null
  | bool (b : Bool)
  | num (q : ℚ)
  | str (s : String)
  | arr (elems : List Json)
  | obj (fields : List (String × Json))

mutual

/-- Structural equality of JSON values, modelling Python `==` on the
values produced by json.load. -/
def Json.beq : Json → Json → Bool
  | .null, .null => true
  | .bool a, .bool b => a == b
  | .num a, .num b => a == b
  | .str a, .str b => a == b
  | .arr a, .arr b => Json.beqList a b
  | .obj a, .obj b => Json.beqFields a b
  | _, _ => false

/-- Elementwise equality of JSON arrays. -/
def Json.beqList : List Json → List Json → Bool
  | [], [] => true
  | x :: xs, y :: ys => Json.beq x y && Json.beqList xs ys
  | _, _ => false

/-- Elementwise equality of JSON object field lists. -/
def Json.beqFields : List (String × Json) → List (String × Json) → Bool
  | [], [] => true
  | (k1, v1) :: xs, (k2, v2) :: ys =>
      k1 == k2 && Json.beq v1 v2 && Json.beqFields xs ys
  | _, _ => false

end

/-- Python `d.get(k, default)`: on a dict, look the key up with a default;
on any other value it raises AttributeError. Json.null models Python None,
so `d.get(k)` is `pyGet d k .null`. -/
def Json.pyGet (j : Json) (k : String) (d : Json) : Except PyErr Json :=
  match j with
  | .obj fields => .ok ((fields.lookup k).getD d)
  | _ => .error "AttributeError"

/-- Python `d[k]` for a string key: KeyError when the key is absent from a
dict, TypeError when the value is not a dict. -/
def Json.pyItem (j : Json) (k : String) : Except PyErr Json :=
  match j with
  | .obj fields =>
      match fields.lookup k with
      | some v => .ok v
      | none => .error "KeyError"
  | _ => .error "TypeError"

/-- Python truthiness of a JSON value. -/
def Json.truthy : Json → Bool
  | .null => false
  | .bool b => b
  | .num q => q != 0
  | .str s => s != ""
  | .arr xs => !xs.isEmpty
  | .obj fs => !fs.isEmpty

/-- Numeric coercion: Python arithmetic accepts numbers and booleans
(True = 1, False = 0) and raises TypeError otherwise. -/
def Json.toNum? : Json → Option ℚ
  | .num q => some q
  | .bool b => some (if b then 1 else 0)
  | _ => none

/-- Python true division `a / b`: TypeError on non-numbers,
ZeroDivisionError when the denominator is zero. -/
def pyDiv (a b : Json) : Except PyErr ℚ :=
  match a.toNum?, b.toNum? with
  | some x, some y =>
      if y = 0 then .error "ZeroDivisionError: division by zero"
      else .ok (x / y)
  | _, _ => .error "TypeError: unsupported operand"

/-- A parsed datetime value, kept as its ISO source string. -/
structure PyDateTime where
  iso : String
deriving DecidableEq

/-- Numeric value of a digit character. -/
def digitVal (c : Char) : Nat := c.toNat - 48

/-- Numeric value of a list of digit characters. -/
def natOfDigits (cs : List Char) : Nat :=
  cs.foldl (fun n c => 10 * n + digitVal c) 0

/-- Valid time part after the separator: HH:MM or HH:MM:SS with in-range
fields. -/
def validTimePart : List Char → Bool
  | [h1, h2, c1, m1, m2] =>
      h1.isDigit && h2.isDigit && c1 == ':' && m1.isDigit && m2.isDigit &&
      natOfDigits [h1, h2] < 24 && natOfDigits [m1, m2] < 60
  | [h1, h2, c1, m1, m2, c2, s1, s2] =>
      h1.isDigit && h2.isDigit && c1 == ':' && m1.isDigit && m2.isDigit &&
      c2 == ':' && s1.isDigit && s2.isDigit &&
      natOfDigits [h1, h2] < 24 && natOfDigits [m1, m2] < 60 &&
      natOfDigits [s1, s2] < 60
  | _ => false

/-- Model of the external standard-library parser `datetime.fromisoformat`
(an external collaborator, not repository code): accepts `YYYY-MM-DD`,
optionally followed by a one-character separator and `HH:MM[:SS]`, with
in-range month, day, hour, minute and second fields; returns none (the
Python call raises ValueError) otherwise. -/
def fromisoformat (s : String) : Option PyDateTime :=
  let cs := s.toList
  match cs.take 10 with
  | [y1, y2, y3, y4, h1, m1, m2, h2, d1, d2] =>
      if y1.isDigit && y2.isDigit && y3.isDigit && y4.isDigit &&
         h1 == '-' && m1.isDigit && m2.isDigit && h2 == '-' &&
         d1.isDigit && d2.isDigit &&
         1 ≤ natOfDigits [m1, m2] && natOfDigits [m1, m2] ≤ 12 &&
         1 ≤ natOfDigits [d1, d2] && natOfDigits [d1, d2] ≤ 31 then
        match cs.drop 10 with
        | [] => some ⟨s⟩
        | _ :: timeChars =>
            if validTimePart timeChars then some ⟨s⟩ else none
      else none
  | _ => none

/-- Lexicographic order on code-point sequences: how Python compares the
strings that `sorted` ranks filenames by. -/
def lexLe : List Char → List Char → Bool
  | [], _ => true
  | _ :: _, [] => false
  | a :: as, b :: bs =>
    if a.toNat < b.toNat then true
    else if b.toNat < a.toNat then false
    else lexLe as bs

/-- Python string comparison `a <= b` (code-point lexicographic), used by
`sorted` on filenames. -/
def nameLe (a b : String) : Bool := lexLe a.toList b.toList

/-- A file visible to a loader: its basename, whether Python's `open` call
succeeds, and the result of `json.load` on its contents (an exception or a
JSON document). -/
structure SnapFile where
  name : String
  openResult : Except PyErr Unit
  parseResult : Except PyErr Json

/-! Embedding of src/graphs.py: load_snapshots, build_timeseries, main. -/

/-- The in-memory record appended by load_snapshots for one file: the
dict literal of src/graphs.py lines 24-27. -/
structure Snapshot where
  timestamp : PyDateTime
  stats : Json

/-- Body of the per-file try block of load_snapshots (src/graphs.py lines
15-27), entered after open succeeded: json.load, then the timestamp
extraction — an isinstance str check, datetime.fromisoformat on a string
(whose ValueError escapes to the except handler), datetime.now() for a
missing or non-string value — and stats extraction defaulting to []. -/
def parseSnapshot (now : PyDateTime) (file : SnapFile) : Except PyErr Snapshot := do
  let data ← file.parseResult
  let tsField ← data.pyGet "timestamp" .null
  let ts ←
    match tsField with
    | .str s =>
        match fromisoformat s with
        | some dt => Except.ok dt
        | none => Except.error "ValueError: Invalid isoformat string"
    | _ => Except.ok now
  let stats ← data.pyGet "stats" (.arr [])
  Except.ok { timestamp := ts, stats := stats }

/-- Filename filter of glob(os.path.join(export_dir, "stats_*.json")):
a basename matches exactly when it starts with "stats_" and ends in
".json" (the two literal parts cannot overlap, so prefix plus suffix is
equivalent to the glob pattern). -/
def globMatch (name : String) : Bool :=
  "stats_".toList.isPrefixOf name.toList && ".json".toList.isSuffixOf name.toList

/-- The for-loop of load_snapshots (src/graphs.py lines 13-29): `with
open(filename)` sits outside the try/except, so a failing open propagates
out of the loader; any exception raised inside the try block is caught,
logged with the filename, and the loop continues with the next file. -/
def snapsLoop (now : PyDateTime) :
    List SnapFile → Except PyErr (List Snapshot × List (String × PyErr))
  | [] => .ok ([], [])
  | f :: rest => do
    let _ ← f.openResult
    match parseSnapshot now f with
    | .ok snap => do
        let r ← snapsLoop now rest
        .ok (snap :: r.1, r.2)
    | .error e => do
        let r ← snapsLoop now rest
        .ok (r.1, (f.name, e) :: r.2)

/-- load_snapshots (src/graphs.py lines 9-30): glob the stats_*.json
files, process them in sorted filename order, return the successfully
parsed snapshots together with the per-file diagnostics that were
printed. -/
def load_snapshots (now : PyDateTime) (files : List SnapFile) :
    Except PyErr (List Snapshot × List (String × PyErr)) :=
  snapsLoop now
    ((files.filter (fun f => globMatch f.name)).insertionSort
      (fun a b => nameLe a.name b.name = true))

/-- The mapping built by build_timeseries, in dict insertion order:
database name (a JSON value, default the string "unknown") to the pair of
parallel timestamp and value lists. -/
abbrev TimeSeries := List (Json × (List PyDateTime × List Json))

/-- One append into the timeseries dict (src/graphs.py lines 42-46):
create the entry with two empty lists if the key is new, then append the
timestamp and the value to its two lists. -/
def tsAppend (ts : TimeSeries) (key : Json) (t : PyDateTime) (v : Json) :
    TimeSeries :=
  if ts.any (fun e => Json.beq e.1 key) then
    ts.map (fun e =>
      if Json.beq e.1 key then (e.1, (e.2.1 ++ [t], e.2.2 ++ [v])) else e)
  else ts ++ [(key, ([t], [v]))]

/-- The inner loop body of build_timeseries (src/graphs.py lines 37-46)
for one stats record: read datname (default "unknown") and the metric
field; skip the record when the metric value is None; using a list or
dict as a dict key raises TypeError (unhashable), as in Python. -/
def recordStep (metric : String) (t : PyDateTime) (ts : TimeSeries)
    (record : Json) : Except PyErr TimeSeries := do
  let dbname ← record.pyGet "datname" (.str "unknown")
  let value ← record.pyGet metric .null
  match value with
  | .null => .ok ts
  | _ =>
    match dbname with
    | .arr _ => .error "TypeError: unhashable type"
    | .obj _ => .error "TypeError: unhashable type"
    | _ => .ok (tsAppend ts dbname t value)

/-- The outer loop body of build_timeseries for one snapshot: iterate its
stats value, which must be a JSON array to be iterable. -/
def snapStep (metric : String) (ts : TimeSeries) (snap : Snapshot) :
    Except PyErr TimeSeries :=
  match snap.stats with
  | .arr records => records.foldlM (recordStep metric snap.timestamp) ts
  | _ => .error "TypeError: not iterable"

/-- build_timeseries (src/graphs.py lines 32-47). -/
def build_timeseries (snapshots : List Snapshot) (metric : String) :
    Except PyErr TimeSeries :=
  snapshots.foldlM (snapStep metric) []

/-- Observable outcome of main (src/graphs.py lines 61-77): the no-data
message, the metric-not-found message, a plotted chart, or an uncaught
exception. -/
inductive MainOutcome where
  | noData
  | metricNotFound
  | plotted (ts : TimeSeries)
  | crashed (e : PyErr)

/-- main (src/graphs.py lines 61-77) after argument parsing: load, report
no data on an empty collection, build the timeseries, report a missing
metric on an empty mapping, otherwise plot. -/
def pyMain (now : PyDateTime) (metric : String) (files : List SnapFile) :
    MainOutcome :=
  match load_snapshots now files with
  | .error e => .crashed e
  | .ok (snapshots, _) =>
    if snapshots.isEmpty then .noData
    else
      match build_timeseries snapshots metric with
      | .error e => .crashed e
      | .ok ts => if ts.isEmpty then .metricNotFound else .plotted ts

/-! Embedding of src/monitor/graphs.py: load_metrics. -/

/-- The derived record appended by load_metrics for one file
(src/monitor/graphs.py lines 32-41). -/
structure DataPoint where
  timestamp : PyDateTime
  blks_ratio : ℚ
  toast_total : ℚ
  avg_select_time_ms : Json
  avg_insert_time_ms : Json
  avg_update_time_ms : Json
  avg_delete_time_ms : Json
  avg_select_size_bytes : Json

/-- Python equality test `x == "postgres"`: true only for the JSON string
"postgres"; a value of any other type compares unequal without error. -/
def isPostgres : Json → Bool
  | .str s => s == "postgres"
  | _ => false

/-- The generator expression of src/monitor/graphs.py lines 21-22:
next((db for db in db_stats if db["datname"]["String"] == "postgres" and
db["datname"]["Valid"]), None). Evaluation is lazy and left to right:
records after the first match are never inspected, and the Valid lookup
happens only when the String comparison succeeded (Python `and`
short-circuits). -/
def findPgStat : List Json → Except PyErr (Option Json)
  | [] => .ok none
  | db :: rest => do
    let datname ← db.pyItem "datname"
    let s ← datname.pyItem "String"
    if isPostgres s then do
      let v ← datname.pyItem "Valid"
      if v.truthy then .ok (some db) else findPgStat rest
    else findPgStat rest

/-- Lines 24-26 of src/monitor/graphs.py: blks_hit defaults to 0 and
blks_read defaults to 1 — the defaults apply when no postgres record was
found, or when the found record lacks the key — followed by the Python
true division blks_hit / blks_read. -/
def ratioOf (pg_stat : Option Json) : Except PyErr ℚ := do
  let blks_hit ←
    match pg_stat with
    | some st => st.pyGet "blks_hit" (.num 0)
    | none => Except.ok (.num 0)
  let blks_read ←
    match pg_stat with
    | some st => st.pyGet "blks_read" (.num 1)
    | none => Except.ok (.num 1)
  pyDiv blks_hit blks_read

/-- Line 29 of src/monitor/graphs.py: sum(t.get("toast_size_bytes", 0)
for t in toast_stats), consuming the generator left to right. -/
def toastSum : List Json → Except PyErr ℚ
  | [] => .ok 0
  | t :: rest => do
    let v ← t.pyGet "toast_size_bytes" (.num 0)
    match v.toNum? with
    | some x => do
        let s ← toastSum rest
        Except.ok (x + s)
    | none => Except.error "TypeError: unsupported operand"

/-- The try block of load_metrics (src/monitor/graphs.py lines 15-43):
open and json.load are both inside the try, the timestamp must be a
present, valid ISO string (content["timestamp"] raises KeyError when
absent and fromisoformat raises on a malformed or non-string value), the
postgres record is selected, the ratio and the TOAST sum are computed,
and the five scalar averages are copied through with .get (None when
absent). -/
def parseDataPoint (file : SnapFile) : Except PyErr DataPoint := do
  let _ ← file.openResult
  let content ← file.parseResult
  let tsField ← content.pyItem "timestamp"
  let ts ←
    match tsField with
    | .str s =>
        match fromisoformat s with
        | some dt => Except.ok dt
        | none => Except.error "ValueError: Invalid isoformat string"
    | _ => Except.error "TypeError: fromisoformat argument must be str"
  let dbStats ← content.pyItem "db_stats"
  let dbs ←
    match dbStats with
    | .arr xs => Except.ok xs
    | _ => Except.error "TypeError: not iterable"
  let pg ← findPgStat dbs
  let ratio ← ratioOf pg
  let toastField ← content.pyGet "toast_stats" (.arr [])
  let toasts ←
    match toastField with
    | .arr xs => Except.ok xs
    | _ => Except.error "TypeError: not iterable"
  let toastTotal ← toastSum toasts
  let a1 ← content.pyGet "avg_select_time_ms" .null
  let a2 ← content.pyGet "avg_insert_time_ms" .null
  let a3 ← content.pyGet "avg_update_time_ms" .null
  let a4 ← content.pyGet "avg_delete_time_ms" .null
  let a5 ← content.pyGet "avg_select_size_bytes" .null
  Except.ok ⟨ts, ratio, toastTotal, a1, a2, a3, a4, a5⟩

/-- The .json extension filter of src/monitor/graphs.py line 11. -/
def isJsonName (name : String) : Bool := ".json".toList.isSuffixOf name.toList

/-- The for-loop of load_metrics (src/monitor/graphs.py lines 10-46):
skip non-.json names, and for each remaining file either append its
DataPoint or catch the exception, log it with the filename, and
continue. -/
def metricsLoop : List SnapFile → List DataPoint × List (String × PyErr)
  | [] => ([], [])
  | f :: rest =>
    if isJsonName f.name then
      match parseDataPoint f with
      | .ok d => (d :: (metricsLoop rest).1, (metricsLoop rest).2)
      | .error e => ((metricsLoop rest).1, (f.name, e) :: (metricsLoop rest).2)
    else metricsLoop rest

/-- load_metrics (src/monitor/graphs.py lines 7-48): iterate
sorted(os.listdir(folder_path)) and return the collected DataPoints
together with the per-file diagnostics that were printed. -/
def load_metrics (files : List SnapFile) :
    List DataPoint × List (String × PyErr) :=
  metricsLoop (files.insertionSort (fun a b => nameLe a.name b.name = true))

/-! Concrete inputs used by the theorems below. -/

/-- A fixed wall-clock instant standing for datetime.now() in closed
statements. -/
def now0 : PyDateTime := ⟨"2024-06-01T00:00:00"⟩

/-- A snapshot file whose postgres db_stats record carries an explicit
blks_read of 0. -/
def fileBlksReadZero : SnapFile :=
  ⟨"a.json", .ok (), .ok (.obj [
    ("timestamp", .str "2024-01-01T00:00:00"),
    ("db_stats", .arr [.obj [
      ("datname", .obj [("String", .str "postgres"), ("Valid", .bool true)]),
      ("blks_hit", .num 5), ("blks_read", .num 0)]])])⟩

/-- A well-formed stats_*.json file whose timestamp string is not valid
ISO-8601. -/
def fileBadTimestamp : SnapFile :=
  ⟨"stats_x.json", .ok (), .ok (.obj [
    ("timestamp", .str "not-a-timestamp"), ("stats", .arr [])])⟩

/-- A stats_*.json file on which the open call itself fails. -/
def fileOpenFails : SnapFile :=
  ⟨"stats_bad.json", .error "PermissionError: denied", .ok .null⟩

/-- First end-to-end snapshot file of the spec's example. -/
def e2eFile1 : SnapFile :=
  ⟨"stats_001.json", .ok (), .ok (.obj [
    ("timestamp", .str "2024-01-01T00:00:00"),
    ("stats", .arr [.obj [("datname", .str "a"), ("x", .num 5)]])])⟩

/-- Second end-to-end snapshot file of the spec's example. -/
def e2eFile2 : SnapFile :=
  ⟨"stats_002.json", .ok (), .ok (.obj [
    ("timestamp", .str "2024-01-02T00:00:00"),
    ("stats", .arr [.obj [("datname", .str "a"), ("x", .num 7)]])])⟩

/-- The TimeSeries mapping the spec's end-to-end example expects. -/
def e2eExpected : TimeSeries :=
  [(.str "a", ([⟨"2024-01-01T00:00:00"⟩, ⟨"2024-01-02T00:00:00"⟩],
               [.num 5, .num 7]))]

/-- A snapshot file with toast_stats [{"toast_size_bytes":100},
{"toast_size_bytes":50}]. -/
def fileToastTwo : SnapFile :=
  ⟨"t.json", .ok (), .ok (.obj [
    ("timestamp", .str "2024-01-01T00:00:00"),
    ("db_stats", .arr []),
    ("toast_stats", .arr [.obj [("toast_size_bytes", .num 100)],
                          .obj [("toast_size_bytes", .num 50)]])])⟩

/-- A snapshot file with toast_stats []. -/
def fileToastEmpty : SnapFile :=
  ⟨"t.json", .ok (), .ok (.obj [
    ("timestamp", .str "2024-01-01T00:00:00"),
    ("db_stats", .arr []),
    ("toast_stats", .arr [])])⟩

/-- A snapshot file with no toast_stats key at all. -/
def fileToastAbsent : SnapFile :=
  ⟨"t.json", .ok (), .ok (.obj [
    ("timestamp", .str "2024-01-01T00:00:00"),
    ("db_stats", .arr [])])⟩

/-- A db_stats record whose datname has String "postgres" but Valid
false. -/
def dbRecInvalid : Json :=
  .obj [("datname", .obj [("String", .str "postgres"), ("Valid", .bool false)]),
        ("blks_hit", .num 9), ("blks_read", .num 9)]

/-- A matching db_stats record: String "postgres", Valid true. -/
def dbRecValid : Json :=
  .obj [("datname", .obj [("String", .str "postgres"), ("Valid", .bool true)]),
        ("blks_hit", .num 3), ("blks_read", .num 4)]

/-- A second matching db_stats record, to appear after the first. -/
def dbRecValidLater : Json :=
  .obj [("datname", .obj [("String", .str "postgres"), ("Valid", .bool true)]),
        ("blks_hit", .num 7), ("blks_read", .num 8)]

/-- A db_stats record the generator expression of src/monitor/graphs.py
line 21-22 passes over without raising: its datname and String lookups
succeed, and either the String comparison fails or the Valid flag is
falsy. -/
def dbSkipped (db : Json) : Prop :=
  ∃ dn s, db.pyItem "datname" = .ok dn ∧ dn.pyItem "String" = .ok s ∧
    (isPostgres s = false ∨
     ∃ v, dn.pyItem "Valid" = .ok v ∧ v.truthy = false)

/-- A db_stats record the generator expression selects: String equals
"postgres" and Valid is truthy. -/
def dbMatches (db : Json) : Prop :=
  ∃ dn v, db.pyItem "datname" = .ok dn ∧
    dn.pyItem "String" = .ok (.str "postgres") ∧
    dn.pyItem "Valid" = .ok v ∧ v.truthy = true

/-- The TimeSeries invariant of the spec: each entity's timestamp list
and value list have equal length. -/
def lensOk (ts : TimeSeries) : Bool :=
  ts.all (fun e => e.2.1.length == e.2.2.length)

/-! Helper lemmas. -/

@[simp] theorem isPostgres_iff (s : Json) :
    isPostgres s = true ↔ s = .str "postgres" := by
  cases s <;> simp [isPostgres]

@[simp] theorem exbind_ok {α β : Type} (a : α) (f : α → Except PyErr β) :
    (Except.ok a >>= f) = f a := rfl

@[simp] theorem exbind_error {α β : Type} (e : PyErr) (f : α → Except PyErr β) :
    ((Except.error e : Except PyErr α) >>= f) = Except.error e := rfl

@[simp] theorem pyGet_obj (fields : List (String × Json)) (k : String) (d : Json) :
    Json.pyGet (.obj fields) k d = .ok ((fields.lookup k).getD d) := rfl

/-- Evaluation of the try-block body of load_snapshots on a successfully
parsed JSON object, by cases on the timestamp field. -/
theorem parseSnapshot_obj (now : PyDateTime) (name : String)
    (op : Except PyErr Unit) (fields : List (String × Json)) :
    parseSnapshot now ⟨name, op, .ok (.obj fields)⟩ =
      (match (fields.lookup "timestamp").getD .null with
       | .str s =>
           match fromisoformat s with
           | some dt =>
               .ok ⟨dt, (fields.lookup "stats").getD (.arr [])⟩
           | none => .error "ValueError: Invalid isoformat string"
       | _ => .ok ⟨now, (fields.lookup "stats").getD (.arr [])⟩) := by
  cases h : (fields.lookup "timestamp").getD .null with
  | str s =>
      cases hf : fromisoformat s <;>
        simp [parseSnapshot, h, hf]
  | _ => simp [parseSnapshot, h]

/-- glob plus sort on a single matching file yields that file alone. -/
theorem load_snapshots_single (now : PyDateTime) (f : SnapFile)
    (hg : globMatch f.name = true) :
    load_snapshots now [f] = snapsLoop now [f] := by
  simp [load_snapshots, List.filter_cons, hg]

/-- One iteration of the load_snapshots loop on a file whose open
succeeds. -/
theorem snapsLoop_single (now : PyDateTime) (f : SnapFile)
    (ho : f.openResult = .ok ()) :
    snapsLoop now [f] =
      (match parseSnapshot now f with
       | .ok s => .ok ([s], [])
       | .error e => .ok ([], [(f.name, e)])) := by
  cases hp : parseSnapshot now f <;> simp [snapsLoop, ho, hp]

/-- tsAppend preserves the equal-lengths invariant: it extends both lists
of one entry by exactly one element, or creates a fresh entry with two
singleton lists. -/
theorem lensOk_tsAppend (ts : TimeSeries) (key : Json) (t : PyDateTime)
    (v : Json) (h : lensOk ts = true) : lensOk (tsAppend ts key t v) = true := by
  simp only [lensOk, List.all_eq_true] at h ⊢
  intro x hx
  unfold tsAppend at hx
  split at hx
  · obtain ⟨e, he, rfl⟩ := List.mem_map.mp hx
    by_cases hb : Json.beq e.1 key = true
    · simpa [hb] using h e he
    · simpa [hb] using h e he
  · rcases List.mem_append.mp hx with hx2 | hx2
    · exact h x hx2
    · simp only [List.mem_singleton] at hx2
      subst hx2
      rfl

/-- recordStep preserves the equal-lengths invariant. -/
theorem lensOk_recordStep {metric : String} {t : PyDateTime}
    {ts ts' : TimeSeries} {record : Json}
    (hs : recordStep metric t ts record = .ok ts')
    (h : lensOk ts = true) : lensOk ts' = true := by
  unfold recordStep at hs
  cases h1 : record.pyGet "datname" (.str "unknown") with
  | error e => rw [h1] at hs; simp at hs
  | ok dbname =>
    rw [h1] at hs
    simp only [exbind_ok] at hs
    cases h2 : record.pyGet metric .null with
    | error e => rw [h2] at hs; simp at hs
    | ok value =>
      rw [h2] at hs
      simp only [exbind_ok] at hs
      cases value with
      | null => cases hs; exact h
      | bool b => cases dbname <;> cases hs <;> exact lensOk_tsAppend _ _ _ _ h
      | num q => cases dbname <;> cases hs <;> exact lensOk_tsAppend _ _ _ _ h
      | str s => cases dbname <;> cases hs <;> exact lensOk_tsAppend _ _ _ _ h
      | arr xs => cases dbname <;> cases hs <;> exact lensOk_tsAppend _ _ _ _ h
      | obj fs => cases dbname <;> cases hs <;> exact lensOk_tsAppend _ _ _ _ h

/-- A property preserved by every successful step of a monadic fold over
Except is carried from the initial accumulator to the final result. -/
theorem foldlM_ok_induct {α β : Type} (f : β → α → Except PyErr β)
    (P : β → Prop) (hf : ∀ b a b', P b → f b a = .ok b' → P b') :
    ∀ (l : List α) (b b'), P b → l.foldlM f b = .ok b' → P b' := by
  intro l
  induction l with
  | nil =>
    intro b b' hb h
    rw [List.foldlM_nil] at h
    cases h
    exact hb
  | cons a tl ih =>
    intro b b' hb h
    rw [List.foldlM_cons] at h
    cases h1 : f b a with
    | error e => rw [h1] at h; simp at h
    | ok b1 =>
      rw [h1] at h
      simp only [exbind_ok] at h
      exact ih b1 b' (hf b a b1 hb h1) h

/-- snapStep preserves the equal-lengths invariant. -/
theorem lensOk_snapStep {metric : String} {ts ts' : TimeSeries}
    {snap : Snapshot} (hs : snapStep metric ts snap = .ok ts')
    (h : lensOk ts = true) : lensOk ts' = true := by
  unfold snapStep at hs
  cases h1 : snap.stats with
  | arr records =>
    rw [h1] at hs
    exact foldlM_ok_induct (recordStep metric snap.timestamp) (fun b => lensOk b = true)
      (fun b a b' hb hstep => lensOk_recordStep hstep hb) records ts ts' h hs
  | null => rw [h1] at hs; exact Except.noConfusion hs
  | bool b => rw [h1] at hs; exact Except.noConfusion hs
  | num q => rw [h1] at hs; exact Except.noConfusion hs
  | str s => rw [h1] at hs; exact Except.noConfusion hs
  | obj fs => rw [h1] at hs; exact Except.noConfusion hs

/-- A record whose metric lookup yields None is skipped by recordStep,
leaving the accumulated mapping unchanged. -/
theorem recordStep_skip (metric : String) (t : PyDateTime) (a : TimeSeries)
    (r : Json) (hr : r.pyGet metric .null = .ok .null) :
    recordStep metric t a r = .ok a := by
  cases r <;> simp [Json.pyGet] at hr
  case obj fs => simp [recordStep, Json.pyGet, hr]

/-- A monadic fold whose every step returns its accumulator unchanged
returns the initial accumulator. -/
theorem foldlM_id {α β : Type} (f : β → α → Except PyErr β) :
    ∀ (l : List α), (∀ a ∈ l, ∀ b, f b a = .ok b) → ∀ b, l.foldlM f b = .ok b := by
  intro l
  induction l with
  | nil => intro _ b; rfl
  | cons a tl ih =>
    intro hf b
    rw [List.foldlM_cons, hf a (List.mem_cons_self a tl) b]
    simp only [exbind_ok]
    exact ih (fun x hx => hf x (List.mem_cons_of_mem a hx)) b

/-- A snapshot none of whose records carries the metric contributes
nothing to the mapping. -/
theorem snapStep_skip (metric : String) (snap : Snapshot) (xs : List Json)
    (hx : snap.stats = .arr xs)
    (hr : ∀ r ∈ xs, r.pyGet metric .null = .ok .null) :
    ∀ ts, snapStep metric ts snap = .ok ts := by
  intro ts
  unfold snapStep
  rw [hx]
  exact foldlM_id _ xs
    (fun r hrm b => recordStep_skip metric snap.timestamp b r (hr r hrm)) ts

/-- lexLe is total. -/
theorem lexLe_total : ∀ as bs, lexLe as bs = true ∨ lexLe bs as = true := by
  intro as
  induction as with
  | nil => intro bs; left; rfl
  | cons a as ih =>
    intro bs
    cases bs with
    | nil => right; rfl
    | cons b bs =>
      rcases Nat.lt_trichotomy a.toNat b.toNat with h | h | h
      · left; simp [lexLe, h]
      · rcases ih bs with h2 | h2
        · left; simp [lexLe, h, h2]
        · right; simp [lexLe, h, h2]
      · right; simp [lexLe, h]

/-- lexLe is transitive. -/
theorem lexLe_trans : ∀ as bs cs, lexLe as bs = true → lexLe bs cs = true →
    lexLe as cs = true := by
  intro as
  induction as with
  | nil => intro bs cs _ _; rfl
  | cons a as ih =>
    intro bs cs h1 h2
    cases bs with
    | nil => simp [lexLe] at h1
    | cons b bs =>
      cases cs with
      | nil => simp [lexLe] at h2
      | cons c cs =>
        simp only [lexLe] at h1 h2 ⊢
        rcases Nat.lt_trichotomy a.toNat b.toNat with hab | hab | hab
        · rcases Nat.lt_trichotomy b.toNat c.toNat with hbc | hbc | hbc
          · simp [show a.toNat < c.toNat from by omega]
          · simp [show a.toNat < c.toNat from by omega]
          · rw [if_neg (by omega), if_pos hbc] at h2
            exact absurd h2 (by decide)
        · rcases Nat.lt_trichotomy b.toNat c.toNat with hbc | hbc | hbc
          · simp [show a.toNat < c.toNat from by omega]
          · rw [if_neg (by omega), if_neg (by omega)] at h1
            rw [if_neg (by omega), if_neg (by omega)] at h2
            rw [if_neg (by omega), if_neg (by omega)]
            exact ih bs cs h1 h2
          · rw [if_neg (by omega), if_pos hbc] at h2
            exact absurd h2 (by decide)
        · rw [if_neg (by omega), if_pos hab] at h1
          exact absurd h1 (by decide)

/-- The records collected by the load_metrics loop are exactly the
successful parses of the .json files, in list order, with no
placeholders. -/
theorem metricsLoop_fst : ∀ l : List SnapFile,
    (metricsLoop l).1 = (l.filter (fun f => isJsonName f.name)).filterMap
      (fun f => (parseDataPoint f).toOption) := by
  intro l
  induction l with
  | nil => rfl
  | cons f tl ih =>
    by_cases hj : isJsonName f.name = true
    · cases hp : parseDataPoint f with
      | ok d => simp [metricsLoop, List.filter_cons, hj, hp, Except.toOption, ih]
      | error e => simp [metricsLoop, List.filter_cons, hj, hp, Except.toOption, ih]
    · simp [metricsLoop, List.filter_cons, hj, ih]

/-- When every open succeeds, the load_snapshots loop returns exactly the
successful parses in list order, plus one log entry per failed parse. -/
theorem snapsLoop_ok (now : PyDateTime) : ∀ l : List SnapFile,
    (∀ f ∈ l, f.openResult = .ok ()) →
    snapsLoop now l = .ok
      (l.filterMap (fun f => (parseSnapshot now f).toOption),
       l.filterMap (fun f =>
         match parseSnapshot now f with
         | .ok _ => none
         | .error e => some (f.name, e))) := by
  intro l
  induction l with
  | nil => intro _; rfl
  | cons f tl ih =>
    intro hall
    have ho : f.openResult = .ok () := hall f (List.mem_cons_self f tl)
    have ihh := ih (fun x hx => hall x (List.mem_cons_of_mem f hx))
    cases hp : parseSnapshot now f with
    | ok snap => simp [snapsLoop, ho, hp, ihh, Except.toOption]
    | error e => simp [snapsLoop, ho, hp, ihh, Except.toOption]

/-! Claim theorems. -/

/-- C1: the claim says a postgres record with blks_read = 0 yields ratio
hits / max(reads, 1) and never a division error; the code instead raises
ZeroDivisionError (its blks_read default of 1 applies only when the key
is absent), so the per-file handler drops the whole file. This theorem
evaluates the code at the failing input. -/
theorem C1_zero_division_raised :
    parseDataPoint fileBlksReadZero =
      .error "ZeroDivisionError: division by zero" ∧
    load_metrics [fileBlksReadZero] =
      ([], [("a.json", "ZeroDivisionError: division by zero")]) :=
  ⟨rfl, rfl⟩

/-- C2 (counterexample): a stats_*.json file whose timestamp is the
malformed string "not-a-timestamp" is excluded by load_snapshots (with a
logged ValueError) rather than included with the current wall-clock
time, refuting the claim that a malformed timestamp never excludes the
file. -/
theorem C2_counterexample :
    load_snapshots now0 [fileBadTimestamp] =
      .ok ([], [("stats_x.json", "ValueError: Invalid isoformat string")]) :=
  rfl

/-- C2 (amended): in load_snapshots a missing or non-string timestamp is
replaced by the current wall-clock time and the snapshot is kept; a valid
ISO-8601 string is parsed and kept; but a string that fails ISO parsing
raises ValueError, which the per-file handler turns into exclusion of the
file. -/
theorem C2_timestamp_default (now : PyDateTime) (name : String)
    (fields : List (String × Json)) (hg : globMatch name = true) :
    (∀ v, (fields.lookup "timestamp").getD .null = v → (∀ s, v ≠ .str s) →
        load_snapshots now [⟨name, .ok (), .ok (.obj fields)⟩] =
          .ok ([⟨now, (fields.lookup "stats").getD (.arr [])⟩], [])) ∧
    (∀ s dt, (fields.lookup "timestamp").getD .null = .str s →
        fromisoformat s = some dt →
        load_snapshots now [⟨name, .ok (), .ok (.obj fields)⟩] =
          .ok ([⟨dt, (fields.lookup "stats").getD (.arr [])⟩], [])) ∧
    (∀ s, (fields.lookup "timestamp").getD .null = .str s →
        fromisoformat s = none →
        load_snapshots now [⟨name, .ok (), .ok (.obj fields)⟩] =
          .ok ([], [(name, "ValueError: Invalid isoformat string")])) := by
  have hload := load_snapshots_single now ⟨name, .ok (), .ok (.obj fields)⟩ hg
  have hloop := snapsLoop_single now ⟨name, .ok (), .ok (.obj fields)⟩ rfl
  have hparse := parseSnapshot_obj now name (.ok ()) fields
  refine ⟨?_, ?_, ?_⟩
  · intro v hv hns
    rw [hload, hloop, hparse, hv]
    cases v with
    | str s => exact absurd rfl (hns s)
    | null => rfl
    | bool b => rfl
    | num q => rfl
    | arr xs => rfl
    | obj fs => rfl
  · intro s dt hv hf
    rw [hload, hloop, hparse, hv]
    simp [hf]
  · intro s hv hf
    rw [hload, hloop, hparse, hv]
    simp [hf]

/-- C2 (witness): an object with no timestamp key is loaded with the
supplied wall-clock time. -/
theorem C2_timestamp_default_witness :
    load_snapshots now0 [⟨"stats_a.json", .ok (), .ok (.obj [("stats", .arr [])])⟩] =
      .ok ([⟨now0, .arr []⟩], []) :=
  (C2_timestamp_default now0 "stats_a.json" [("stats", .arr [])] rfl).1
    .null rfl (fun _ h => Json.noConfusion h)

/-- C5: the derived toast_total is the sum of the toast_size_bytes fields
over the snapshot's toast_stats entries — in general over any entry list
whose per-entry lookups yield numbers, and concretely 150 for the
two-entry example, 0 for the empty sequence and 0 when toast_stats is
absent. -/
theorem C5_toast_total (ts : List Json) (qs : List ℚ)
    (h : List.Forall₂
      (fun t q => t.pyGet "toast_size_bytes" (.num 0) = .ok (.num q)) ts qs) :
    toastSum ts = .ok qs.sum ∧
    (parseDataPoint fileToastTwo).map (fun d => d.toast_total) = .ok 150 ∧
    (parseDataPoint fileToastEmpty).map (fun d => d.toast_total) = .ok 0 ∧
    (parseDataPoint fileToastAbsent).map (fun d => d.toast_total) = .ok 0 := by
  refine ⟨?_, ?_, rfl, rfl⟩
  · induction h with
    | nil => simp [toastSum]
    | cons hab htl ih => simp [toastSum, hab, Json.toNum?, ih]
  · have h2 : (parseDataPoint fileToastTwo).map (fun d => d.toast_total) =
        .ok (100 + (50 + 0) : ℚ) := rfl
    rw [h2]
    norm_num

/-- C5 (witness): the two-entry example sums to 150. -/
theorem C5_toast_total_witness :
    toastSum [.obj [("toast_size_bytes", .num 100)],
              .obj [("toast_size_bytes", .num 50)]] = .ok 150 := by
  have h := (C5_toast_total
    [.obj [("toast_size_bytes", .num 100)], .obj [("toast_size_bytes", .num 50)]]
    [100, 50] (.cons rfl (.cons rfl .nil))).1
  simp only [List.sum_cons, List.sum_nil] at h
  norm_num at h
  exact h

/-- C3 (counterexample): in load_snapshots the open call sits outside the
try block, so an error from opening a matching file propagates out of the
loader instead of being caught and logged — refuting the claim that no
per-file read error ever escapes. -/
theorem C3_counterexample :
    load_snapshots now0 [fileOpenFails] = .error "PermissionError: denied" :=
  rfl

/-- C3 (amended): every error raised inside a per-file try block is
caught, logged with the filename, contributes no record, and leaves the
processing of the surrounding files unchanged — in load_metrics this
covers open, parse and structural errors alike, while in load_snapshots
it covers everything after the open, the open itself being outside the
try block. -/
theorem C3_per_file_errors (f : SnapFile) (e : PyErr) :
    (∀ pre post, isJsonName f.name = true → parseDataPoint f = .error e →
        metricsLoop (pre ++ f :: post) =
          ((metricsLoop pre).1 ++ (metricsLoop post).1,
           (metricsLoop pre).2 ++ (f.name, e) :: (metricsLoop post).2)) ∧
    (∀ now pre post s1 l1 s2 l2,
        f.openResult = .ok () → parseSnapshot now f = .error e →
        snapsLoop now pre = .ok (s1, l1) → snapsLoop now post = .ok (s2, l2) →
        snapsLoop now (pre ++ f :: post) =
          .ok (s1 ++ s2, l1 ++ (f.name, e) :: l2)) := by
  constructor
  · intro pre post hj hp
    induction pre with
    | nil => simp [metricsLoop, hj, hp]
    | cons g tl ih =>
      by_cases hg : isJsonName g.name = true
      · cases hpg : parseDataPoint g with
        | ok d => simp [metricsLoop, hg, hpg, ih]
        | error e2 => simp [metricsLoop, hg, hpg, ih]
      · simp [metricsLoop, hg, ih]
  · intro now pre post s1 l1 s2 l2 ho hp hpre hpost
    induction pre generalizing s1 l1 with
    | nil =>
      cases hpre
      simp [snapsLoop, ho, hp, hpost]
    | cons g tl ih =>
      simp only [snapsLoop] at hpre
      cases hog : g.openResult with
      | error e2 => rw [hog] at hpre; simp at hpre
      | ok u =>
        rw [hog] at hpre
        simp only [exbind_ok] at hpre
        cases hpg : parseSnapshot now g with
        | ok snap =>
          rw [hpg] at hpre
          cases hr : snapsLoop now tl with
          | error e3 => rw [hr] at hpre; simp at hpre
          | ok r =>
            rw [hr] at hpre
            simp only [exbind_ok] at hpre
            injection hpre with h
            injection h with h1 h2
            subst h1
            subst h2
            simp [snapsLoop, hog, hpg, ih r.1 r.2 hr]
        | error e2 =>
          rw [hpg] at hpre
          cases hr : snapsLoop now tl with
          | error e3 => rw [hr] at hpre; simp at hpre
          | ok r =>
            rw [hr] at hpre
            simp only [exbind_ok] at hpre
            injection hpre with h
            injection h with h1 h2
            subst h1
            subst h2
            simp [snapsLoop, hog, hpg, ih r.1 r.2 hr]

/-- C3 (witness): a malformed file between two other files contributes
exactly one log entry in position and no record, and the surrounding
files are still processed. -/
theorem C3_per_file_errors_witness :
    metricsLoop [e2eFile1, fileBadTimestamp, e2eFile2] =
      ([], [("stats_001.json", "KeyError"),
            ("stats_x.json", "ValueError: Invalid isoformat string"),
            ("stats_002.json", "KeyError")]) :=
  (C3_per_file_errors fileBadTimestamp
      "ValueError: Invalid isoformat string").1 [e2eFile1] [e2eFile2] rfl rfl

/-- C4: the derived extractor selects a db_stats record only when its
datname has String equal to "postgres" and a truthy Valid flag; a record
with String "postgres" but Valid false is passed over; and with no match
the defaults give ratio 0/1 = 0. -/
theorem C4_postgres_selection :
    (∀ dbs db, findPgStat dbs = .ok (some db) →
        ∃ dn, db.pyItem "datname" = .ok dn ∧
          dn.pyItem "String" = .ok (.str "postgres") ∧
          ∃ v, dn.pyItem "Valid" = .ok v ∧ v.truthy = true) ∧
    (∀ db rest dn v, db.pyItem "datname" = .ok dn →
        dn.pyItem "String" = .ok (.str "postgres") →
        dn.pyItem "Valid" = .ok v → v.truthy = false →
        findPgStat (db :: rest) = findPgStat rest) ∧
    ratioOf none = .ok 0 := by
  refine ⟨?_, ?_, ?_⟩
  · intro dbs
    induction dbs with
    | nil => intro db h; simp [findPgStat] at h
    | cons d rest ih =>
      intro db h
      simp only [findPgStat] at h
      cases h1 : d.pyItem "datname" with
      | error e => rw [h1] at h; simp at h
      | ok dn =>
        rw [h1] at h
        simp only [exbind_ok] at h
        cases h2 : dn.pyItem "String" with
        | error e => rw [h2] at h; simp at h
        | ok s =>
          rw [h2] at h
          simp only [exbind_ok] at h
          by_cases hp : isPostgres s = true
          · rw [if_pos hp] at h
            cases h3 : dn.pyItem "Valid" with
            | error e => rw [h3] at h; simp at h
            | ok v =>
              rw [h3] at h
              simp only [exbind_ok] at h
              by_cases ht : v.truthy = true
              · rw [if_pos ht] at h
                obtain rfl : d = db := by
                  simpa using h
                exact ⟨dn, h1, (isPostgres_iff s).mp hp ▸ h2, v, h3, ht⟩
              · rw [if_neg ht] at h
                exact ih db h
          · rw [if_neg hp] at h
            exact ih db h
  · intro db rest dn v h1 h2 h3 h4
    simp [findPgStat, h1, h2, h3, h4]
  · simp [ratioOf, pyDiv, Json.toNum?]

/-- C4 (witness): a record with String "postgres" but Valid false is
skipped, so the search continues past it. -/
theorem C4_postgres_selection_witness :
    findPgStat [dbRecInvalid, dbRecValid] = findPgStat [dbRecValid] :=
  C4_postgres_selection.2.1 dbRecInvalid [dbRecValid]
    (.obj [("String", .str "postgres"), ("Valid", .bool false)]) (.bool false)
    rfl rfl rfl rfl

/-- C10: when several db_stats records match (String "postgres", truthy
Valid), the lazily evaluated generator returns the first match in
sequence order, and all later records — matching or not — are never
inspected. -/
theorem C10_first_match (pre post : List Json) (db : Json)
    (hpre : ∀ d ∈ pre, dbSkipped d) (hdb : dbMatches db) :
    findPgStat (pre ++ db :: post) = .ok (some db) := by
  induction pre with
  | nil =>
    obtain ⟨dn, v, h1, h2, h3, h4⟩ := hdb
    simp [findPgStat, h1, h2, h3, h4]
  | cons d tl ih =>
    obtain ⟨dn, s, h1, h2, hrest⟩ := hpre d (List.mem_cons_self d tl)
    have ih2 := ih (fun x hx => hpre x (List.mem_cons_of_mem d hx))
    cases hrest with
    | inl hnp =>
      simp [findPgStat, h1, h2, hnp, ih2]
    | inr hv =>
      obtain ⟨v, h3, h4⟩ := hv
      by_cases hp : isPostgres s = true <;>
        simp [findPgStat, h1, h2, h3, h4, hp, ih2]

/-- C10 (witness): with an invalid record first and two matching records
after it, the first matching record is the one selected. -/
theorem C10_first_match_witness :
    findPgStat [dbRecInvalid, dbRecValid, dbRecValidLater] =
      .ok (some dbRecValid) :=
  C10_first_match [dbRecInvalid] [dbRecValidLater] dbRecValid
    (fun d hd => by
      rcases List.mem_singleton.mp hd with rfl
      exact ⟨_, _, rfl, rfl, .inr ⟨.bool false, rfl, rfl⟩⟩)
    ⟨_, .bool true, rfl, rfl, rfl, rfl⟩

/-- C6: in every mapping the generic extractor returns, each entity's
timestamp list and value list have equal length — the two lists start
empty together and recordStep only ever appends one element to each. -/
theorem C6_parallel_lengths (snaps : List Snapshot) (metric : String)
    (ts : TimeSeries) (h : build_timeseries snaps metric = .ok ts) :
    lensOk ts = true :=
  foldlM_ok_induct (snapStep metric) (fun b => lensOk b = true)
    (fun b a b' hb hstep => lensOk_snapStep hstep hb) snaps [] ts rfl h

/-- C6 (witness): the invariant evaluated on a concrete one-snapshot
extraction. -/
theorem C6_parallel_lengths_witness :
    lensOk [(Json.str "a", ([now0], [Json.num 5]))] = true :=
  C6_parallel_lengths
    [⟨now0, .arr [.obj [("datname", .str "a"), ("x", .num 5)]]⟩] "x"
    [(Json.str "a", ([now0], [Json.num 5]))] rfl

/-- C7: both loaders return exactly the successfully parsed files'
records, in the lexicographically sorted order of their filenames among
the name-filtered candidates, with no gap markers for failed files; and
the sorted candidate list is sorted under the filename order. -/
theorem C7_sorted_successful_order (now : PyDateTime) (files : List SnapFile)
    (hopen : ∀ f ∈ files, globMatch f.name = true → f.openResult = .ok ()) :
    ((load_metrics files).1 =
      ((files.insertionSort (fun a b => nameLe a.name b.name = true)).filter
          (fun f => isJsonName f.name)).filterMap
        (fun f => (parseDataPoint f).toOption)) ∧
    ((load_snapshots now files).map Prod.fst =
      .ok (((files.filter (fun f => globMatch f.name)).insertionSort
              (fun a b => nameLe a.name b.name = true)).filterMap
            (fun f => (parseSnapshot now f).toOption))) ∧
    (((files.filter (fun f => globMatch f.name)).insertionSort
        (fun a b => nameLe a.name b.name = true)).Pairwise
      (fun a b => nameLe a.name b.name = true)) := by
  refine ⟨metricsLoop_fst _, ?_, ?_⟩
  · have hall : ∀ f ∈ (files.filter (fun f => globMatch f.name)).insertionSort
        (fun a b => nameLe a.name b.name = true), f.openResult = .ok () := by
      intro f hf
      have hmem : f ∈ files.filter (fun f => globMatch f.name) :=
        (List.perm_insertionSort _ _).mem_iff.mp hf
      exact hopen f (List.mem_filter.mp hmem).1 (List.mem_filter.mp hmem).2
    unfold load_snapshots
    rw [snapsLoop_ok now _ hall]
    rfl
  · haveI : IsTrans SnapFile (fun a b => nameLe a.name b.name = true) :=
      ⟨fun a b c hab hbc => lexLe_trans _ _ _ hab hbc⟩
    haveI : IsTotal SnapFile (fun a b => nameLe a.name b.name = true) :=
      ⟨fun a b => lexLe_total _ _⟩
    exact List.sorted_insertionSort _ _

/-- C7 (witness): two files listed out of order load into filename
order. -/
theorem C7_sorted_successful_order_witness :
    (load_snapshots now0 [e2eFile2, e2eFile1]).map Prod.fst =
      .ok [⟨⟨"2024-01-01T00:00:00"⟩,
            .arr [.obj [("datname", .str "a"), ("x", .num 5)]]⟩,
           ⟨⟨"2024-01-02T00:00:00"⟩,
            .arr [.obj [("datname", .str "a"), ("x", .num 7)]]⟩] :=
  (C7_sorted_successful_order now0 [e2eFile2, e2eFile1]
    (by
      intro f hf hg
      simp only [List.mem_cons, List.not_mem_nil, or_false] at hf
      rcases hf with rfl | rfl <;> rfl)).2.1

/-- C8: the single-folder pipeline distinguishes its two recovered empty
outcomes — a directory with no glob-matching file loads to an empty
collection and main reports no data without plotting, while a non-empty
collection whose snapshots all lack the requested metric produces an
empty mapping reported as metric-not-found, and the two outcomes are
distinct. -/
theorem C8_empty_outcomes :
    (∀ now metric files, (∀ f ∈ files, globMatch f.name = false) →
        pyMain now metric files = .noData) ∧
    (∀ now metric files snaps logs,
        load_snapshots now files = .ok (snaps, logs) → snaps ≠ [] →
        (∀ snap ∈ snaps, ∃ xs, snap.stats = .arr xs ∧
            ∀ r ∈ xs, r.pyGet metric .null = .ok .null) →
        pyMain now metric files = .metricNotFound) ∧
    MainOutcome.noData ≠ MainOutcome.metricNotFound := by
  refine ⟨?_, ?_, ?_⟩
  · intro now metric files hf
    have hfilter : files.filter (fun f => globMatch f.name) = [] := by
      rw [List.filter_eq_nil_iff]
      intro f hf2
      simp [hf f hf2]
    have hload : load_snapshots now files = .ok ([], []) := by
      unfold load_snapshots
      rw [hfilter]
      rfl
    unfold pyMain
    rw [hload]
    rfl
  · intro now metric files snaps logs hload hne hall
    unfold pyMain
    rw [hload]
    cases snaps with
    | nil => exact absurd rfl hne
    | cons s tl =>
      have hbuild : build_timeseries (s :: tl) metric = .ok [] :=
        foldlM_id (snapStep metric) (s :: tl)
          (fun snap hs b =>
            (hall snap hs).elim
              (fun xs hxs => snapStep_skip metric snap xs hxs.1 hxs.2 b)) []
      simp [hbuild]
  · intro h
    exact MainOutcome.noConfusion h

/-- C8 (witness): an empty directory yields the no-data outcome. -/
theorem C8_empty_outcomes_witness :
    pyMain now0 "xact_commit" [] = .noData :=
  C8_empty_outcomes.1 now0 "xact_commit" []
    (fun f hf => absurd hf (List.not_mem_nil f))

/-- C9: loading a directory with exactly the spec's two snapshot files
(in either listing order) and extracting metric "x" yields the single
entity "a" with parallel timestamp and value lists, as the spec's
end-to-end example states. -/
theorem C9_end_to_end (now : PyDateTime) :
    (load_snapshots now [e2eFile1, e2eFile2]).bind
        (fun r => build_timeseries r.1 "x") = .ok e2eExpected ∧
    (load_snapshots now [e2eFile2, e2eFile1]).bind
        (fun r => build_timeseries r.1 "x") = .ok e2eExpected :=
  ⟨rfl, rfl⟩
